import Mathlib

/-!
Verification development for the Telegram medical record-keeping bot
(src/main.py).  Python strings are embedded as lists of characters
(PyStr); the Python string primitives used by the source (lower, strip,
split, the int constructor) are modelled explicitly.  The conversation
state machine is embedded exactly as wired in MedicalBot.run: each
ConversationHandler state is dispatched to the handler that the source
registers for it, and fallible dictionary/database accesses are modelled
with an explicit error constructor.
-/

namespace MedicalBot

/-- Embedding of a Python str as its list of characters. -/
abbrev PyStr := List Char

/-- Characters removed by Python str.strip() with no argument (ASCII whitespace). -/
def isPySpace (c : Char) : Bool :=
  c = ' ' || c = '\t' || c = '\n' || c = '\r' || c = '\x0b' || c = '\x0c'

/-- Embedding of Python str.strip(): drop leading and trailing whitespace. -/
def pyStrip (s : PyStr) : PyStr :=
  ((s.dropWhile isPySpace).reverse.dropWhile isPySpace).reverse

/-- Embedding of Python str.lower() restricted to the ASCII range used by the source. -/
def pyLower (s : PyStr) : PyStr :=
  s.map Char.toLower

/-- Fuel-driven worker for pySplit.  Each step consumes at least one
character of the subject string, so fuel equal to the length of the
subject is always sufficient; the fuel-exhausted arm is unreachable for
that choice of fuel. -/
def pySplitF (sep : PyStr) : Nat → PyStr → List PyStr
  | _, [] => [[]]
  | 0, s => [s]
  | fuel + 1, c :: rest =>
    if sep.isPrefixOf (c :: rest) then
      [] :: pySplitF sep fuel (List.drop sep.length (c :: rest))
    else
      match pySplitF sep fuel rest with
      | [] => [[c]]
      | h :: t => (c :: h) :: t

/-- Embedding of Python s.split(sep) for a non-empty separator: split on
every non-overlapping occurrence of sep, scanning left to right. -/
def pySplit (sep s : PyStr) : List PyStr :=
  pySplitF sep s.length s

/-- Value of a digit string, most significant digit first. -/
def digitsVal (s : PyStr) : Nat :=
  s.foldl (fun a c => 10 * a + (c.toNat - 48)) 0

/-- Tail of the digit grammar accepted by the Python int constructor:
digits with single underscores allowed strictly between digits. -/
def digitsTail : PyStr → Bool
  | [] => true
  | c :: rest =>
    if c = '_' then
      match rest with
      | [] => false
      | d :: rest' => d.isDigit && digitsTail rest'
    else
      c.isDigit && digitsTail rest

/-- Digit grammar accepted by the Python int constructor after sign
handling: non-empty, starts with a digit, underscores only between digits. -/
def goodDigits : PyStr → Bool
  | [] => false
  | c :: rest => c.isDigit && digitsTail rest

/-- Remove the underscore digit separators before computing the value. -/
def dropUnderscores (s : PyStr) : PyStr :=
  s.filter (fun c => !(c = '_' : Bool))

/-- Sign-and-digits stage of the Python int constructor, applied to the
stripped text. -/
def pyIntCore : PyStr → Option Int
  | [] => none
  | c :: rest =>
    if c = '+' then
      if goodDigits rest then some (Int.ofNat (digitsVal (dropUnderscores rest))) else none
    else if c = '-' then
      if goodDigits rest then some (-(Int.ofNat (digitsVal (dropUnderscores rest)))) else none
    else
      if goodDigits (c :: rest) then
        some (Int.ofNat (digitsVal (dropUnderscores (c :: rest))))
      else none

/-- Embedding of the Python int constructor applied to a str: surrounding
whitespace is stripped, an optional sign is accepted, and the rest must
match the decimal digit grammar; None models a raised ValueError. -/
def pyInt (s : PyStr) : Option Int :=
  pyIntCore (pyStrip s)

/-- One parsed medication entry (src/main.py lines 282-287): four free-text fields. -/
structure Medication where
  name : PyStr
  dosage : PyStr
  quantity : PyStr
  instructions : PyStr
deriving DecidableEq, Repr

/-- The hard-coded H. pylori quadruple-therapy template
(src/main.py lines 247-272), reproduced byte for byte. -/
def hPyloriMedications : List Medication :=
  [ ⟨"Doxycycline 100mg".data, "100mg".data, "28 tablets".data,
      "Take 1 tablet twice daily (morning and evening) after meals for 14 days".data⟩,
    ⟨"Metronidazole 500mg".data, "500mg".data, "42 tablets".data,
      "Take 1 tablet three times daily (morning, lunch, evening) after meals for 14 days".data⟩,
    ⟨"Esomeprazole 40mg".data, "40mg".data, "28 tablets".data,
      "Take 1 tablet twice daily (morning and evening) before meals for 14 days".data⟩,
    ⟨"Bismuth 525mg".data, "525mg".data, "56 tablets".data,
      "Take 1 tablet four times daily (morning, lunch, evening, bedtime) with meals for 14 days".data⟩ ]

/-- Parse one line of the custom prescription block (src/main.py lines
278-287): a line is used only if it contains a pipe and splits into
exactly four segments; each segment is stripped. -/
def parseMedLine (line : PyStr) : Option Medication :=
  if line.contains '|' then
    match (pySplit ['|'] line).map pyStrip with
    | [n, d, q, i] => some ⟨n, d, q, i⟩
    | _ => none
  else none

/-- The accumulating loop of src/main.py lines 278-287 over the lines of the block. -/
def parseMedLines : List PyStr → List Medication
  | [] => []
  | line :: rest =>
    match parseMedLine line with
    | some m => m :: parseMedLines rest
    | none => parseMedLines rest

/-- The medication parser inlined in confirm_prescription
(src/main.py lines 243-287): the lowered text is compared against the
template keyword; otherwise the original text is stripped, split into
lines, and each line is parsed by parseMedLine. -/
def parseMedications (text : PyStr) : List Medication :=
  if pyLower text = "h.pylori".data then
    hPyloriMedications
  else
    parseMedLines (pySplit ['\n'] (pyStrip text))

/-- Calendar date as produced by datetime.now(); only the fields the
source renders are modelled. -/
structure PyDate where
  day : Nat
  month : Nat
  year : Nat
deriving DecidableEq, Repr

/-- ASCII character of a decimal digit. -/
def digitChar (k : Nat) : Char :=
  Char.ofNat (48 + k)

/-- Fuel-driven decimal rendering of a natural number, most significant
digit first; fuel n + 1 always suffices for rendering n. -/
def natDigitsF : Nat → Nat → PyStr
  | 0, _ => []
  | fuel + 1, n =>
    if n < 10 then [digitChar n]
    else natDigitsF fuel (n / 10) ++ [digitChar (n % 10)]

/-- Decimal rendering of a natural number, as Python str applied to an int. -/
def natDigits (n : Nat) : PyStr :=
  natDigitsF (n + 1) n

/-- Two-digit zero-padded rendering, as the strftime fields %d and %m. -/
def pad2 (n : Nat) : PyStr :=
  if n < 10 then '0' :: natDigits n else natDigits n

/-- Embedding of strftime applied with the format %d-%m-%Y
(src/main.py lines 298, 365, 416). -/
def fmtDMY (d : PyDate) : PyStr :=
  pad2 d.day ++ '-' :: (pad2 d.month ++ '-' :: natDigits d.year)

/-- ISO rendering YYYY-MM-DD: the form in which the sqlite3 date adapter
stores a Python date object, and hence the text stored in the
admission_date and discharge_date columns. -/
def isoDate (d : PyDate) : PyStr :=
  natDigits d.year ++ '-' :: (pad2 d.month ++ '-' :: pad2 d.day)

/-- Shape predicate for the literal operator-facing format DD-MM-YYYY. -/
def isDDMMYYYY (s : PyStr) : Bool :=
  match s with
  | [a, b, c, d, e, f, g, h, i, j] =>
    a.isDigit && b.isDigit && (c = '-' : Bool) && d.isDigit && e.isDigit &&
      (f = '-' : Bool) && g.isDigit && h.isDigit && i.isDigit && j.isDigit
  | _ => false

/-- Shape predicate for the ISO format YYYY-MM-DD. -/
def isYYYYMMDD (s : PyStr) : Bool :=
  match s with
  | [a, b, c, d, e, f, g, h, i, j] =>
    a.isDigit && b.isDigit && c.isDigit && d.isDigit && (e = '-' : Bool) &&
      f.isDigit && g.isDigit && (h = '-' : Bool) && i.isDigit && j.isDigit
  | _ => false

/-- A row of the patients table (src/main.py lines 29-38). -/
structure Patient where
  id : Nat
  name : PyStr
  age : Int
  phone : PyStr
  created_at : PyDate
deriving DecidableEq, Repr

/-- A row of the prescriptions table (src/main.py lines 41-52). -/
structure Prescription where
  id : Nat
  patient_id : Int
  diagnosis : PyStr
  admission_date : PyDate
  discharge_date : PyDate
  medications : List Medication
deriving DecidableEq, Repr

/-- The record store: both tables plus their AUTOINCREMENT counters
(SQLite assigns identifiers starting at 1). -/
structure DB where
  patients : List Patient
  prescriptions : List Prescription
  nextPatientId : Nat
  nextPrescriptionId : Nat
deriving DecidableEq, Repr

/-- The empty store produced by init_database. -/
def emptyDB : DB :=
  ⟨[], [], 1, 1⟩

/-- Session Context: the keys the source ever writes into
context.user_data, each absent until first assigned. -/
structure UserData where
  patient_name : Option PyStr
  patient_age : Option Int
  patient_phone : Option PyStr
  current_patient_id : Option Nat
  selected_patient_id : Option Int
  diagnosis : Option PyStr
  medications : Option (List Medication)
deriving DecidableEq, Repr

/-- Fresh per-operator Session Context. -/
def emptyUD : UserData :=
  ⟨none, none, none, none, none, none, none⟩

/-- Conversation states.  The named states are the six constants of
src/main.py line 15; idle is ConversationHandler.END, when no
conversation is active. -/
inductive ChatState where
  | idle
  | patientName
  | patientAge
  | patientPhone
  | patientDiagnosis
  | prescriptionInput
  | confirmPrescription
deriving DecidableEq, Repr

/-- Python exceptions that the embedded handlers can raise. -/
inductive PyErr where
  | keyError (key : String)
  | typeError
deriving DecidableEq, Repr

/-- Observable replies sent to the operator during one turn, abstracted
to tags (the date renderings, which claim C10 is about, are modelled by
the dedicated render functions below). -/
inductive Reply where
  | mainMenu
  | askName
  | askAge
  | askValidAge
  | askPhone
  | patientAdded (id : Nat)
  | noPatients
  | selectPatient
  | askDiagnosis
  | selectFromList
  | promptPrescription
  | invalidPrescriptionFormat
  | preview
  | prescriptionSaved (id : Nat)
  | promptCorrected
  | cancelled
  | patientList
  | prescriptionList
  | searchPrompt
  | searchResults (found : List Patient)
  | stats
  | raised (e : PyErr)
deriving DecidableEq, Repr

/-- Result of running one handler: the updated Session Context, store and
conversation state together with the replies sent, or a raised Python
exception. -/
inductive TurnOut where
  | ok (ud : UserData) (db : DB) (st : ChatState) (rs : List Reply)
  | err (e : PyErr)
deriving DecidableEq, Repr

/-- Menu label literals from the source keyboards. -/
def addPatientLbl : PyStr := "👤 Add New Patient".data

def viewPatientsLbl : PyStr := "📋 View Patients".data

def createRxLbl : PyStr := "💊 Create Prescription".data

def viewRxLbl : PyStr := "📊 View Prescriptions".data

def searchLbl : PyStr := "🔍 Search Patient".data

def statsLbl : PyStr := "📈 Statistics".data

def mainMenuLbl : PyStr := "🏠 Main Menu".data

def cancelLbl : PyStr := "🚫 Cancel".data

def confirmSaveLbl : PyStr := "✅ Confirm & Save".data

def editLbl : PyStr := "✏️ Edit".data

/-- The literal marker located inside a patient-choice string. -/
def idMarker : PyStr := "ID: ".data

/-- Handler cancel (src/main.py lines 542-555): sends the cancelled
message and returns ConversationHandler.END.  It does not touch
context.user_data. -/
def cancelH (_t : PyStr) (_today : PyDate) (ud : UserData) (db : DB) : TurnOut :=
  .ok ud db .idle [.cancelled]

/-- Handler add_patient_start (src/main.py lines 81-87). -/
def add_patient_start (_t : PyStr) (_today : PyDate) (ud : UserData) (db : DB) : TurnOut :=
  .ok ud db .patientName [.askName]

/-- Handler patient_name (src/main.py lines 89-96). -/
def patient_name (t : PyStr) (_today : PyDate) (ud : UserData) (db : DB) : TurnOut :=
  .ok { ud with patient_name := some t } db .patientAge [.askAge]

/-- Handler patient_age (src/main.py lines 98-110): the int conversion
failure is caught and answered with a re-prompt in the same state. -/
def patient_age (t : PyStr) (_today : PyDate) (ud : UserData) (db : DB) : TurnOut :=
  match pyInt t with
  | some n => .ok { ud with patient_age := some n } db .patientPhone [.askPhone]
  | none => .ok ud db .patientAge [.askValidAge]

/-- Handler patient_phone (src/main.py lines 112-151): stores the phone,
inserts the patient row and records the assigned identifier. -/
def patient_phone (t : PyStr) (today : PyDate) (ud : UserData) (db : DB) : TurnOut :=
  let ud1 := { ud with patient_phone := some t }
  match ud1.patient_name with
  | none => .err (.keyError "patient_name")
  | some nm =>
    match ud1.patient_age with
    | none => .err (.keyError "patient_age")
    | some ag =>
      let pid := db.nextPatientId
      let db1 : DB :=
        { db with
            patients := db.patients ++ [⟨pid, nm, ag, t, today⟩],
            nextPatientId := pid + 1 }
      .ok { ud1 with current_patient_id := some pid } db1 .idle [.patientAdded pid]

/-- The ten most recently created patients (src/main.py lines 158-162:
ORDER BY created_at DESC LIMIT 10; insertion order stands in for the
creation timestamps). -/
def recentPatients (db : DB) : List Patient :=
  db.patients.reverse.take 10

/-- Handler create_prescription_start (src/main.py lines 153-186):
without patients the sub-flow exits immediately, otherwise the selection
keyboard is shown and the state becomes PATIENT_DIAGNOSIS. -/
def create_prescription_start (_t : PyStr) (_today : PyDate) (ud : UserData) (db : DB) : TurnOut :=
  if recentPatients db = [] then
    .ok ud db .idle [.noPatients]
  else
    .ok ud db .patientDiagnosis [.selectPatient]

/-- Handler patient_diagnosis (src/main.py lines 188-207): the cancel
choice is forwarded to cancel; otherwise the id is the Python int of
element 1 of the split of the text on the ID marker, with IndexError and
ValueError both caught by a re-prompt in the same state. -/
def patient_diagnosis (t : PyStr) (today : PyDate) (ud : UserData) (db : DB) : TurnOut :=
  if t = cancelLbl then cancelH t today ud db
  else
    match (pySplit idMarker t).get? 1 with
    | none => .ok ud db .patientDiagnosis [.selectFromList]
    | some seg =>
      match pyInt seg with
      | none => .ok ud db .patientDiagnosis [.selectFromList]
      | some n =>
        .ok { ud with selected_patient_id := some n } db .prescriptionInput [.askDiagnosis]

/-- Handler prescription_input (src/main.py lines 209-239): stores the
diagnosis verbatim and shows the prescription format template. -/
def prescription_input (t : PyStr) (_today : PyDate) (ud : UserData) (db : DB) : TurnOut :=
  .ok { ud with diagnosis := some t } db .confirmPrescription [.promptPrescription]

/-- Handler confirm_prescription (src/main.py lines 241-334): parses the
prescription text, re-prompts on an empty result, otherwise stores the
medication list and renders the preview (which reads the selected
patient row; a missing key or row raises).  The source never registers
this handler in any ConversationHandler state (see run, lines 586-593). -/
def confirm_prescription (t : PyStr) (_today : PyDate) (ud : UserData) (db : DB) : TurnOut :=
  let medications := parseMedications t
  if medications = [] then
    .ok ud db .confirmPrescription [.invalidPrescriptionFormat]
  else
    let ud1 := { ud with medications := some medications }
    match ud1.selected_patient_id with
    | none => .err (.keyError "selected_patient_id")
    | some pid =>
      match db.patients.find? (fun p => (Int.ofNat p.id) = pid) with
      | none => .err .typeError
      | some _ =>
        match ud1.diagnosis with
        | none => .err (.keyError "diagnosis")
        | some _ => .ok ud1 db .confirmPrescription [.preview]

/-- Handler save_prescription (src/main.py lines 336-394): the handler
registered for state CONFIRM_PRESCRIPTION.  The confirm choice reads
user_data medications, selected_patient_id and diagnosis (raising
KeyError on any missing key, in that order) and inserts the prescription
with admission and discharge dates both set to today; Edit re-prompts in
the same state; every other text falls into the else arm and cancels. -/
def save_prescription (t : PyStr) (today : PyDate) (ud : UserData) (db : DB) : TurnOut :=
  if t = confirmSaveLbl then
    match ud.medications with
    | none => .err (.keyError "medications")
    | some meds =>
      match ud.selected_patient_id with
      | none => .err (.keyError "selected_patient_id")
      | some pid =>
        match ud.diagnosis with
        | none => .err (.keyError "diagnosis")
        | some diag =>
          let rid := db.nextPrescriptionId
          let db1 : DB :=
            { db with
                prescriptions := db.prescriptions ++ [⟨rid, pid, diag, today, today, meds⟩],
                nextPrescriptionId := rid + 1 }
          .ok ud db1 .idle [.prescriptionSaved rid]
  else if t = editLbl then
    .ok ud db .confirmPrescription [.promptCorrected]
  else
    cancelH t today ud db

/-- Substring occurrence test, modelling the LIKE pattern with the term
wrapped in percent wildcards. -/
def pySubstr (needle : PyStr) : PyStr → Bool
  | [] => needle.isEmpty
  | c :: rest => needle.isPrefixOf (c :: rest) || pySubstr needle rest

/-- Handler handle_search (src/main.py lines 470-498): strips the term
and matches it as a case-insensitive substring (SQLite LIKE over ASCII)
against patient name or phone.  The source never registers this handler:
run installs only button_handler for free text (lines 596-600). -/
def handle_search (t : PyStr) (_today : PyDate) (ud : UserData) (db : DB) : TurnOut :=
  let term := pyStrip t
  let found := db.patients.filter (fun p =>
    pySubstr (pyLower term) (pyLower p.name) || pySubstr (pyLower term) (pyLower p.phone))
  .ok ud db .idle [.searchResults found]

/-- Dispatch with no active conversation: the two conversation entry
points (run, lines 582-585) are checked first, then button_handler
(src/main.py lines 557-574); unrecognized text matches no branch and is
dropped. -/
def idleDispatch (t : PyStr) (today : PyDate) (ud : UserData) (db : DB) : TurnOut :=
  if t = addPatientLbl then add_patient_start t today ud db
  else if t = createRxLbl then create_prescription_start t today ud db
  else if t = viewPatientsLbl then .ok ud db .idle [.patientList]
  else if t = viewRxLbl then .ok ud db .idle [.prescriptionList]
  else if t = searchLbl then .ok ud db .idle [.searchPrompt]
  else if t = statsLbl then .ok ud db .idle [.stats]
  else if t = mainMenuLbl then .ok ud db .idle [.mainMenu]
  else .ok ud db .idle []

/-- One inbound update from the operator: a text message or the /cancel command. -/
inductive Msg where
  | text (t : PyStr)
  | cancelCmd
deriving DecidableEq, Repr

/-- Full per-operator configuration: conversation state, Session Context
and the record store. -/
structure Cfg where
  st : ChatState
  ud : UserData
  db : DB
deriving DecidableEq, Repr

/-- The initial configuration: no active conversation, fresh Session
Context, empty store. -/
def initCfg : Cfg :=
  ⟨.idle, emptyUD, emptyDB⟩

/-- Fold a handler result back into the configuration.  On a raised
exception python-telegram-bot logs the error and keeps the conversation
state, so the configuration is left unchanged. -/
def applyOut (c : Cfg) : TurnOut → Cfg × List Reply
  | .ok ud db st rs => (⟨st, ud, db⟩, rs)
  | .err e => (c, [.raised e])

/-- One turn of the conversation state machine, exactly as wired in run
(src/main.py lines 576-605): each registered state maps to its handler
and, in particular, state CONFIRM_PRESCRIPTION maps to
save_prescription; /cancel is the conversation fallback and is ignored
outside a conversation. -/
def step (today : PyDate) (c : Cfg) : Msg → Cfg × List Reply
  | .cancelCmd =>
    match c.st with
    | .idle => (c, [])
    | _ => applyOut c (cancelH [] today c.ud c.db)
  | .text t =>
    match c.st with
    | .idle => applyOut c (idleDispatch t today c.ud c.db)
    | .patientName => applyOut c (patient_name t today c.ud c.db)
    | .patientAge => applyOut c (patient_age t today c.ud c.db)
    | .patientPhone => applyOut c (patient_phone t today c.ud c.db)
    | .patientDiagnosis => applyOut c (patient_diagnosis t today c.ud c.db)
    | .prescriptionInput => applyOut c (prescription_input t today c.ud c.db)
    | .confirmPrescription => applyOut c (save_prescription t today c.ud c.db)

/-- Run a sequence of inbound updates, collecting every reply sent. -/
def runMsgs (today : PyDate) : List Msg → Cfg → Cfg × List Reply
  | [], c => (c, [])
  | m :: ms, c =>
    ((runMsgs today ms (step today c m).1).1,
      (step today c m).2 ++ (runMsgs today ms (step today c m).1).2)

/-- Date strings shown by view_patients (src/main.py line 416):
fromisoformat of the stored creation timestamp, rendered with
strftime %d-%m-%Y. -/
def viewPatientsDateStrs (db : DB) : List PyStr :=
  (db.patients.reverse.take 20).map (fun p => fmtDMY p.created_at)

/-- Date string shown in the prescription preview (src/main.py line 298). -/
def previewDateStr (today : PyDate) : PyStr :=
  fmtDMY today

/-- Date string shown in the save confirmation (src/main.py line 365). -/
def savedDateStr (today : PyDate) : PyStr :=
  fmtDMY today

/-- Date strings shown by view_prescriptions (src/main.py lines 448-459):
the admission_date column value rx[3] is interpolated verbatim, i.e. the
ISO text the sqlite3 date adapter stored, with no strftime applied. -/
def viewPrescriptionsDateStrs (db : DB) : List PyStr :=
  (db.prescriptions.reverse.take 10).map (fun rx => isoDate rx.admission_date)

/-! Helper lemmas about the embedded Python string primitives. -/

/-- The separator occurs nowhere inside the string. -/
def NoOcc (sep l : PyStr) : Prop :=
  ∀ a b : PyStr, l ≠ a ++ sep ++ b

lemma noOcc_of_not_mem {c : Char} {sep l : PyStr} (hc : c ∈ sep) (h : c ∉ l) :
    NoOcc sep l := by
  intro a b hl
  exact h (hl ▸ (by simp [hc] : c ∈ a ++ sep ++ b))

lemma pySplitF_noOcc {sep : PyStr} (_hsep : sep ≠ []) :
    ∀ (fuel : Nat) (l : PyStr), l.length ≤ fuel → NoOcc sep l →
      pySplitF sep fuel l = [l] := by
  intro fuel
  induction fuel with
  | zero =>
    intro l hl _
    cases l with
    | nil => rfl
    | cons c rest => simp at hl
  | succ f ih =>
    intro l hl hno
    cases l with
    | nil => rfl
    | cons c rest =>
      have hpre : sep.isPrefixOf (c :: rest) = false := by
        by_contra hb
        have hp : sep <+: (c :: rest) :=
          List.isPrefixOf_iff_prefix.mp (by simpa using hb)
        obtain ⟨t, ht⟩ := hp
        exact hno [] t (by simp [ht.symm])
      have hrest : NoOcc sep rest := by
        intro a b hab
        exact hno (c :: a) b (by simp [hab])
      have hlen : rest.length ≤ f := by simpa using hl
      simp [pySplitF, hpre, ih rest hlen hrest]

lemma pySplit_noOcc {sep l : PyStr} (hsep : sep ≠ []) (h : NoOcc sep l) :
    pySplit sep l = [l] :=
  pySplitF_noOcc hsep l.length l le_rfl h

lemma pySplitF_first {sep : PyStr} (hsep : sep ≠ []) :
    ∀ (pre : PyStr) (fuel : Nat) (suf : PyStr),
      (pre ++ sep ++ suf).length ≤ fuel → NoOcc sep suf →
      (∀ i, i < pre.length →
        sep.isPrefixOf (List.drop i (pre ++ sep ++ suf)) = false) →
      pySplitF sep fuel (pre ++ sep ++ suf) = [pre, suf] := by
  intro pre
  induction pre with
  | nil =>
    intro fuel suf hlen hno _
    cases hs : sep with
    | nil => exact absurd hs hsep
    | cons s srest =>
      subst hs
      cases fuel with
      | zero => simp at hlen
      | succ f =>
        have hpre : (s :: srest).isPrefixOf (s :: (srest ++ suf)) = true := by
          rw [List.isPrefixOf_iff_prefix]
          exact List.prefix_append _ _
        have hdrop :
            List.drop (s :: srest).length (s :: (srest ++ suf)) = suf :=
          List.drop_left (s :: srest) suf
        have hsuf : suf.length ≤ f := by
          simp [List.length_append] at hlen
          omega
        show pySplitF (s :: srest) (f + 1) (s :: (srest ++ suf)) = [[], suf]
        simp [pySplitF, hpre, hdrop, pySplitF_noOcc hsep f suf hsuf hno]
  | cons c pre' ih =>
    intro fuel suf hlen hno hfirst
    cases fuel with
    | zero => simp at hlen
    | succ f =>
      have h0 : sep.isPrefixOf (c :: (pre' ++ sep ++ suf)) = false := by
        have := hfirst 0 (by simp)
        simpa using this
      have hlen' : (pre' ++ sep ++ suf).length ≤ f := by
        simp [List.length_append] at hlen ⊢
        omega
      have hfirst' : ∀ i, i < pre'.length →
          sep.isPrefixOf (List.drop i (pre' ++ sep ++ suf)) = false := by
        intro i hi
        have := hfirst (i + 1) (by simpa using Nat.succ_lt_succ hi)
        simpa [List.drop_succ_cons] using this
      have hrec := ih f suf hlen' hno hfirst'
      have h0' : ¬ (sep.isPrefixOf (c :: (pre' ++ sep ++ suf)) = true) := by
        rw [h0]
        exact Bool.false_ne_true
      show pySplitF sep (f + 1) (c :: (pre' ++ sep ++ suf)) = [c :: pre', suf]
      simp only [pySplitF]
      rw [if_neg h0', hrec]

lemma pySplit_first {sep pre suf : PyStr} (hsep : sep ≠ []) (hno : NoOcc sep suf)
    (hfirst : ∀ i, i < pre.length →
      sep.isPrefixOf (List.drop i (pre ++ sep ++ suf)) = false) :
    pySplit sep (pre ++ sep ++ suf) = [pre, suf] :=
  pySplitF_first hsep pre (pre ++ sep ++ suf).length suf le_rfl hno hfirst

lemma parseMedLines_eq_filterMap :
    ∀ ls : List PyStr, parseMedLines ls = ls.filterMap parseMedLine := by
  intro ls
  induction ls with
  | nil => rfl
  | cons l rest ih =>
    cases h : parseMedLine l <;> simp [parseMedLines, h, ih, List.filterMap_cons]

lemma parseMedLine_four {line : PyStr} {a b c d : PyStr}
    (h : (pySplit ['|'] line).map pyStrip = [a, b, c, d]) :
    parseMedLine line = some ⟨a, b, c, d⟩ := by
  have hcon : line.contains '|' = true := by
    by_contra hb
    have hnm : '|' ∉ line := by
      intro hm
      exact hb (by simpa [List.contains, List.elem_eq_mem] using hm)
    rw [pySplit_noOcc (by simp) (noOcc_of_not_mem (by simp) hnm)] at h
    simp at h
  have hmem : '|' ∈ line := by
    simpa [List.contains, List.elem_eq_mem] using hcon
  simp [parseMedLine, hcon, hmem, h]

lemma parseMedLine_not_four {line : PyStr}
    (h : ((pySplit ['|'] line).map pyStrip).length ≠ 4) :
    parseMedLine line = none := by
  unfold parseMedLine
  cases hcon : line.contains '|' with
  | false => simp
  | true =>
    simp only [if_true]
    rcases hp : (pySplit ['|'] line).map pyStrip with
      _ | ⟨a, _ | ⟨b, _ | ⟨c, _ | ⟨d, _ | rest⟩⟩⟩⟩ <;>
      simp_all

/-- Every prescription row stored so far carries a non-empty medication list. -/
def medsNonEmptyDB (db : DB) : Bool :=
  db.prescriptions.all (fun p => !p.medications.isEmpty)

/-- The in-progress medication list of the Session Context, when present,
is non-empty. -/
def medsNonEmptyUD (ud : UserData) : Bool :=
  match ud.medications with
  | none => true
  | some m => !m.isEmpty

/-- Combined medication invariant on a configuration. -/
def medsOk (c : Cfg) : Bool :=
  medsNonEmptyDB c.db && medsNonEmptyUD c.ud

lemma step_medsOk (today : PyDate) (c : Cfg) (m : Msg) (h : medsOk c = true) :
    medsOk (step today c m).1 = true := by
  obtain ⟨st, ud, db⟩ := c
  have hdb : medsNonEmptyDB db = true := by
    have h2 := h
    simp only [medsOk, Bool.and_eq_true] at h2
    exact h2.1
  have hud : medsNonEmptyUD ud = true := by
    have h2 := h
    simp only [medsOk, Bool.and_eq_true] at h2
    exact h2.2
  have hdbE : ∀ x ∈ db.prescriptions, ¬x.medications = [] := by
    simpa [medsNonEmptyDB] using hdb
  have hudM : (match ud.medications with
      | none => true
      | some m => !m.isEmpty) = true := hud
  cases m with
  | cancelCmd =>
    cases st <;> simp [step, applyOut, cancelH, medsOk, hdb, hud]
  | text t =>
    cases st with
    | idle =>
      simp only [step]
      unfold idleDispatch add_patient_start create_prescription_start
      repeat' split
      all_goals
        simp [applyOut, medsOk, medsNonEmptyDB, medsNonEmptyUD, hdbE, hudM]
      all_goals (try exact hdbE)
    | patientName =>
      simp only [step]
      unfold patient_name
      simp [applyOut, medsOk, medsNonEmptyDB, medsNonEmptyUD, hdbE, hudM]
      all_goals (try exact hdbE)
    | patientAge =>
      simp only [step]
      unfold patient_age
      repeat' split
      all_goals
        simp [applyOut, medsOk, medsNonEmptyDB, medsNonEmptyUD, hdbE, hudM]
      all_goals (try exact hdbE)
    | patientPhone =>
      simp only [step]
      unfold patient_phone
      cases hn : ud.patient_name with
      | none =>
        simp [hn, applyOut, medsOk, medsNonEmptyDB, medsNonEmptyUD, hdbE, hudM]
        all_goals (try exact hdbE)
      | some nm =>
        cases ha : ud.patient_age with
        | none =>
          simp [hn, ha, applyOut, medsOk, medsNonEmptyDB, medsNonEmptyUD, hdbE, hudM]
          all_goals (try exact hdbE)
        | some ag =>
          simp [hn, ha, applyOut, medsOk, medsNonEmptyDB, medsNonEmptyUD, hdbE, hudM]
          all_goals (try exact hdbE)
    | patientDiagnosis =>
      simp only [step]
      unfold patient_diagnosis cancelH
      repeat' split
      all_goals
        simp [applyOut, medsOk, medsNonEmptyDB, medsNonEmptyUD, hdbE, hudM]
      all_goals (try exact hdbE)
    | prescriptionInput =>
      simp only [step]
      unfold prescription_input
      simp [applyOut, medsOk, medsNonEmptyDB, medsNonEmptyUD, hdbE, hudM]
      all_goals (try exact hdbE)
    | confirmPrescription =>
      simp only [step]
      unfold save_prescription cancelH
      repeat' split
      all_goals
        simp_all [applyOut, medsOk, medsNonEmptyDB, medsNonEmptyUD,
          List.mem_append]

lemma runMsgs_medsOk (today : PyDate) :
    ∀ (msgs : List Msg) (c : Cfg), medsOk c = true →
      medsOk (runMsgs today msgs c).1 = true := by
  intro msgs
  induction msgs with
  | nil => intro c h; simpa [runMsgs] using h
  | cons m ms ih =>
    intro c h
    exact ih (step today c m).1 (step_medsOk today c m h)

/-! Helper lemmas about digits, the Python int constructor and date rendering. -/

lemma isDigit_ne {c d : Char} (hc : c.isDigit = true) (hd : d.isDigit = false) :
    c ≠ d := by
  intro h
  subst h
  rw [hd] at hc
  exact Bool.noConfusion hc

lemma isPySpace_of_isDigit {c : Char} (h : c.isDigit = true) : isPySpace c = false := by
  by_contra hb
  have hs : isPySpace c = true := by
    cases he : isPySpace c with
    | false => exact absurd he hb
    | true => rfl
  unfold isPySpace at hs
  simp only [Bool.or_eq_true, decide_eq_true_eq] at hs
  rcases hs with ((((h1 | h1) | h1) | h1) | h1) | h1 <;>
    (subst h1; exact absurd h (by decide))

lemma dropWhile_eq_self_of {p : Char → Bool} {l : PyStr}
    (h : ∀ c ∈ l, p c = false) : l.dropWhile p = l := by
  cases l with
  | nil => rfl
  | cons c rest => simp [List.dropWhile_cons, h c (by simp)]

lemma pyStrip_eq_self {l : PyStr} (h : ∀ c ∈ l, isPySpace c = false) :
    pyStrip l = l := by
  unfold pyStrip
  rw [dropWhile_eq_self_of h,
    dropWhile_eq_self_of (fun c hc => h c (by simpa using hc)),
    List.reverse_reverse]

lemma digitsTail_all : ∀ {l : PyStr}, (∀ c ∈ l, c.isDigit = true) →
    digitsTail l = true := by
  intro l
  induction l with
  | nil => intro _; rfl
  | cons c rest ih =>
    intro h
    have hc := h c (by simp)
    have hne : c ≠ '_' := isDigit_ne hc (by decide)
    have hrest : digitsTail rest = true :=
      ih (fun x hx => h x (List.mem_cons_of_mem c hx))
    unfold digitsTail
    rw [if_neg hne, hc, hrest]
    rfl

lemma goodDigits_all {l : PyStr} (hne : l ≠ []) (h : ∀ c ∈ l, c.isDigit = true) :
    goodDigits l = true := by
  cases l with
  | nil => exact absurd rfl hne
  | cons c rest =>
    simp [goodDigits, h c (by simp),
      digitsTail_all (l := rest) (fun x hx => h x (List.mem_cons_of_mem c hx))]

lemma dropUnderscores_all {l : PyStr} (h : ∀ c ∈ l, c.isDigit = true) :
    dropUnderscores l = l := by
  unfold dropUnderscores
  rw [List.filter_eq_self]
  intro c hc
  have hne : c ≠ '_' := isDigit_ne (h c hc) (by decide)
  simp [hne]

lemma pyInt_digits {l : PyStr} (hne : l ≠ []) (h : ∀ c ∈ l, c.isDigit = true) :
    pyInt l = some (Int.ofNat (digitsVal l)) := by
  have hstrip : pyStrip l = l :=
    pyStrip_eq_self (fun c hc => isPySpace_of_isDigit (h c hc))
  unfold pyInt
  rw [hstrip]
  cases l with
  | nil => exact absurd rfl hne
  | cons c rest =>
    have hc := h c (by simp)
    have hplus : ¬ (c = '+') := isDigit_ne hc (by decide)
    have hminus : ¬ (c = '-') := isDigit_ne hc (by decide)
    simp only [pyIntCore]
    rw [if_neg hplus, if_neg hminus,
      if_pos (show goodDigits (c :: rest) = true from goodDigits_all (by simp) h),
      dropUnderscores_all h]

lemma natDigitsF_irrel : ∀ (f1 f2 n : Nat), n < f1 → n < f2 →
    natDigitsF f1 n = natDigitsF f2 n := by
  intro f1
  induction f1 with
  | zero => intro f2 n h1 _; exact absurd h1 (Nat.not_lt_zero n)
  | succ f ih =>
    intro f2 n h1 h2
    cases f2 with
    | zero => exact absurd h2 (Nat.not_lt_zero n)
    | succ g =>
      by_cases h10 : n < 10
      · simp [natDigitsF, h10]
      · have hd : n / 10 < n := Nat.div_lt_self (by omega) (by omega)
        have hrec := ih g (n / 10) (by omega) (by omega)
        simp [natDigitsF, h10, hrec]

lemma natDigits_lt10 {n : Nat} (h : n < 10) : natDigits n = [digitChar n] := by
  simp [natDigits, natDigitsF, h]

lemma natDigits_ge10 {n : Nat} (h : 10 ≤ n) :
    natDigits n = natDigits (n / 10) ++ [digitChar (n % 10)] := by
  have hd : n / 10 < n := Nat.div_lt_self (by omega) (by omega)
  unfold natDigits
  rw [show natDigitsF (n + 1) n = natDigitsF n (n / 10) ++ [digitChar (n % 10)] from by
    simp [natDigitsF, Nat.not_lt.mpr h]]
  rw [natDigitsF_irrel n (n / 10 + 1) (n / 10) (by omega) (by omega)]

lemma digitChar_isDigit {k : Nat} (h : k < 10) : (digitChar k).isDigit = true := by
  interval_cases k <;> decide

lemma pad2_shape {n : Nat} (h : n < 100) :
    ∃ a b, pad2 n = [a, b] ∧ a.isDigit = true ∧ b.isDigit = true := by
  by_cases h10 : n < 10
  · exact ⟨'0', digitChar n, by simp [pad2, h10, natDigits_lt10 h10],
      by decide, digitChar_isDigit h10⟩
  · have h1 : 10 ≤ n := Nat.not_lt.mp h10
    have hq : n / 10 < 10 := by omega
    refine ⟨digitChar (n / 10), digitChar (n % 10), ?_,
      digitChar_isDigit hq, digitChar_isDigit (by omega)⟩
    unfold pad2
    rw [if_neg h10, natDigits_ge10 h1, natDigits_lt10 hq]
    rfl

lemma natDigits4_shape {y : Nat} (h1 : 1000 ≤ y) (h2 : y < 10000) :
    ∃ a b c d, natDigits y = [a, b, c, d] ∧ a.isDigit = true ∧
      b.isDigit = true ∧ c.isDigit = true ∧ d.isDigit = true := by
  have e1 := natDigits_ge10 (show 10 ≤ y by omega)
  have e2 := natDigits_ge10 (show 10 ≤ y / 10 by omega)
  have e3 := natDigits_ge10 (show 10 ≤ y / 10 / 10 by omega)
  have e4 := natDigits_lt10 (show y / 10 / 10 / 10 < 10 by omega)
  refine ⟨digitChar (y / 10 / 10 / 10), digitChar (y / 10 / 10 % 10),
    digitChar (y / 10 % 10), digitChar (y % 10), ?_,
    digitChar_isDigit (by omega), digitChar_isDigit (by omega),
    digitChar_isDigit (by omega), digitChar_isDigit (by omega)⟩
  rw [e1, e2, e3, e4]
  rfl

/-- Realistic calendar bounds, enough to pin the rendered digit counts. -/
def ValidDate (d : PyDate) : Prop :=
  1 ≤ d.day ∧ d.day ≤ 31 ∧ 1 ≤ d.month ∧ d.month ≤ 12 ∧
    1000 ≤ d.year ∧ d.year ≤ 9999

instance (d : PyDate) : Decidable (ValidDate d) := by
  unfold ValidDate
  infer_instance

lemma fmtDMY_shape {d : PyDate} (h : ValidDate d) : isDDMMYYYY (fmtDMY d) = true := by
  obtain ⟨h1, h2, h3, h4, h5, h6⟩ := h
  obtain ⟨a, b, hab, ha, hb⟩ := pad2_shape (show d.day < 100 by omega)
  obtain ⟨c, e, hce, hc, he⟩ := pad2_shape (show d.month < 100 by omega)
  obtain ⟨f, g, i, j, hfg, hf, hg, hi, hj⟩ :=
    natDigits4_shape (y := d.year) (by omega) (by omega)
  unfold fmtDMY
  rw [hab, hce, hfg]
  simp [isDDMMYYYY, ha, hb, hc, he, hf, hg, hi, hj]

lemma isoDate_shape {d : PyDate} (h : ValidDate d) :
    isYYYYMMDD (isoDate d) = true ∧ isDDMMYYYY (isoDate d) = false := by
  obtain ⟨h1, h2, h3, h4, h5, h6⟩ := h
  obtain ⟨a, b, hab, ha, hb⟩ := pad2_shape (show d.month < 100 by omega)
  obtain ⟨c, e, hce, hc, he⟩ := pad2_shape (show d.day < 100 by omega)
  obtain ⟨f, g, i, j, hfg, hf, hg, hi, hj⟩ :=
    natDigits4_shape (y := d.year) (by omega) (by omega)
  unfold isoDate
  rw [hab, hce, hfg]
  constructor
  · simp [isYYYYMMDD, ha, hb, hc, he, hf, hg, hi, hj]
  · have hne : (i = '-' : Bool) = false :=
      decide_eq_false (isDigit_ne hi (by decide))
    simp [isDDMMYYYY, hne]

/-! Concrete fixtures shared by several claim theorems. -/

/-- A fixed authoring date used in concrete scenarios. -/
def someDay : PyDate := ⟨12, 10, 2026⟩

/-- A registered patient used in concrete scenarios. -/
def janePatient : Patient := ⟨1, "Jane Doe".data, 40, "555-1234".data, someDay⟩

/-- A store holding exactly that one patient. -/
def dbJane : DB := ⟨[janePatient], [], 2, 1⟩

/-! Claim theorems. -/

/-- C1: the claim states that in the review state any text other than the
three recognized choices is re-parsed as replacement prescription text
while staying in review.  The code wired for state CONFIRM_PRESCRIPTION
is save_prescription, whose else arm treats every text other than the
confirm and edit labels as a cancel: the conversation ends and the
medication parser is never invoked.  This theorem evaluates that actual
behaviour. -/
theorem claim1_review_other_text_cancels (today : PyDate) (c : Cfg) (t : PyStr)
    (hst : c.st = .confirmPrescription) (h1 : t ≠ confirmSaveLbl) (h2 : t ≠ editLbl) :
    step today c (.text t) = (⟨.idle, c.ud, c.db⟩, [.cancelled]) := by
  obtain ⟨st, ud, db⟩ := c
  simp only at hst
  subst hst
  simp [step, save_prescription, cancelH, applyOut, h1, h2]

/-- C1 witness: prescription body text sent in the review state is
treated as a cancel. -/
theorem claim1_witness :
    ("h.pylori".data ≠ confirmSaveLbl) ∧ ("h.pylori".data ≠ editLbl) ∧
    step someDay ⟨.confirmPrescription, emptyUD, emptyDB⟩ (.text "h.pylori".data) =
      (⟨.idle, emptyUD, emptyDB⟩, [.cancelled]) :=
  ⟨by decide, by decide,
    claim1_review_other_text_cancels someDay ⟨.confirmPrescription, emptyUD, emptyDB⟩
      "h.pylori".data rfl (by decide) (by decide)⟩

/-- C2: starting from any configuration whose store and Session Context
satisfy the medication invariant, no sequence of inbound messages can
ever persist a prescription row with an empty medication list. -/
theorem claim2_no_empty_prescription_persisted (today : PyDate) (msgs : List Msg)
    (c : Cfg) (h : medsOk c = true) :
    ((runMsgs today msgs c).1.db.prescriptions.all
      (fun p => !p.medications.isEmpty)) = true := by
  have hr := runMsgs_medsOk today msgs c h
  simp only [medsOk, Bool.and_eq_true] at hr
  exact hr.1

/-- C2 witness: a run over a store seeded with one well-formed
prescription, driving the prescription sub-flow end to end. -/
theorem claim2_witness :
    (medsOk ⟨.idle, emptyUD,
      ⟨[janePatient],
        [⟨1, 1, "Flu".data, someDay, someDay, [⟨"A".data, "B".data, "C".data, "D".data⟩]⟩],
        2, 2⟩⟩ = true) ∧
    ((runMsgs someDay
        [.text createRxLbl, .text "Jane Doe (Age: 40) - ID: 1".data,
          .text "Acute gastritis".data, .text confirmSaveLbl, .cancelCmd]
        ⟨.idle, emptyUD,
          ⟨[janePatient],
            [⟨1, 1, "Flu".data, someDay, someDay, [⟨"A".data, "B".data, "C".data, "D".data⟩]⟩],
            2, 2⟩⟩).1.db.prescriptions.all (fun p => !p.medications.isEmpty)) = true :=
  ⟨by decide, claim2_no_empty_prescription_persisted _ _ _ (by decide)⟩

/-- C3: the claim states that the confirm choice with no stored
medication list completes the turn without an unhandled exception.  In
the code the turn raises KeyError on the medications key: this theorem
runs a full registration-then-prescription scenario and shows the final
turn aborts with that exception, leaving the conversation parked in
CONFIRM_PRESCRIPTION. -/
theorem claim3_confirm_without_meds_raises :
    runMsgs someDay
      [.text addPatientLbl, .text "Jane Doe".data, .text "40".data,
        .text "555-1234".data, .text createRxLbl,
        .text "Jane Doe (Age: 40) - ID: 1".data, .text "Acute gastritis".data,
        .text confirmSaveLbl]
      initCfg =
    (⟨.confirmPrescription,
      ⟨some "Jane Doe".data, some 40, some "555-1234".data, some 1, some 1,
        some "Acute gastritis".data, none⟩,
      dbJane⟩,
      [.askName, .askAge, .askPhone, .patientAdded 1, .selectPatient, .askDiagnosis,
        .promptPrescription, .raised (.keyError "medications")]) := by
  decide

/-- C4 counterexample: the claim states that a global cancel clears the
Session Context entirely.  Cancelling from the diagnosis-collection state
returns to IDLE but the stored diagnosis and selected patient id are
still present afterwards. -/
theorem claim4_cancel_keeps_context :
    (step someDay ⟨.prescriptionInput,
        ⟨none, none, none, none, some 3, some "Flu".data, none⟩, emptyDB⟩
      .cancelCmd).1.st = .idle ∧
    (step someDay ⟨.prescriptionInput,
        ⟨none, none, none, none, some 3, some "Flu".data, none⟩, emptyDB⟩
      .cancelCmd).1.ud.diagnosis = some "Flu".data ∧
    (step someDay ⟨.prescriptionInput,
        ⟨none, none, none, none, some 3, some "Flu".data, none⟩, emptyDB⟩
      .cancelCmd).1.ud.selected_patient_id = some 3 := by
  decide

/-- C4 amended: a global cancel from any non-idle state ends the
conversation and returns to IDLE, but leaves the Session Context exactly
as it was: no field is removed. -/
theorem claim4_cancel_returns_idle_without_clearing (today : PyDate) (c : Cfg)
    (h : c.st ≠ .idle) :
    step today c .cancelCmd = (⟨.idle, c.ud, c.db⟩, [.cancelled]) := by
  obtain ⟨st, ud, db⟩ := c
  cases st <;>
    first
    | exact absurd rfl h
    | simp [step, cancelH, applyOut]

/-- C4 witness: cancelling out of the age-collection state. -/
theorem claim4_witness :
    ((⟨.patientAge, emptyUD, emptyDB⟩ : Cfg).st ≠ .idle) ∧
    step someDay ⟨.patientAge, emptyUD, emptyDB⟩ .cancelCmd =
      (⟨.idle, emptyUD, emptyDB⟩, [.cancelled]) :=
  ⟨by decide,
    claim4_cancel_returns_idle_without_clearing someDay ⟨.patientAge, emptyUD, emptyDB⟩
      (by decide)⟩

/-- C5 counterexample: the claim states that surrounding whitespace is
trimmed before the template keyword comparison.  The code lowers the text
but never strips it, so a keyword wrapped in spaces normalizes (in the
sense of the claim) to the token yet yields an empty parse instead of the
template. -/
theorem claim5_whitespace_defeats_template :
    pyStrip (pyLower " h.pylori ".data) = "h.pylori".data ∧
    parseMedications " h.pylori ".data = [] ∧
    parseMedications " h.pylori ".data ≠ hPyloriMedications := by
  decide

/-- C5 amended: template detection compares the lowered, unstripped text
against the keyword; whenever the lowered text equals the keyword exactly
the parser returns the fixed four-entry template, taking precedence over
pipe-line parsing. -/
theorem claim5_lowered_keyword_yields_template (text : PyStr)
    (h : pyLower text = "h.pylori".data) :
    parseMedications text = hPyloriMedications := by
  simp [parseMedications, h]

/-- C5 witness: mixed-case keyword. -/
theorem claim5_witness :
    (pyLower "H.PyLoRi".data = "h.pylori".data) ∧
    parseMedications "H.PyLoRi".data = hPyloriMedications :=
  ⟨by decide, claim5_lowered_keyword_yields_template "H.PyLoRi".data (by decide)⟩

/-- C6: for non-keyword input the parser is exactly the per-line filter
map over the lines of the stripped text: a line whose pipe split yields
exactly four stripped segments produces the entry with those fields in
order, and any line with a different segment count (in particular a line
with no pipe at all) is dropped without affecting other lines. -/
theorem claim6_pipe_line_parsing (text : PyStr)
    (h : pyLower text ≠ "h.pylori".data) :
    parseMedications text = (pySplit ['\n'] (pyStrip text)).filterMap parseMedLine ∧
    (∀ line a b c d, (pySplit ['|'] line).map pyStrip = [a, b, c, d] →
      parseMedLine line = some ⟨a, b, c, d⟩) ∧
    (∀ line, ((pySplit ['|'] line).map pyStrip).length ≠ 4 →
      parseMedLine line = none) := by
  refine ⟨?_, ?_, ?_⟩
  · simp [parseMedications, h, parseMedLines_eq_filterMap]
  · intro line a b c d h4
    exact parseMedLine_four h4
  · intro line h4
    exact parseMedLine_not_four h4

/-- C6 witness: a block mixing a valid medication line, a free-text line
and a three-segment line. -/
theorem claim6_witness :
    (pyLower "Amoxicillin | 500mg | 21 caps | thrice daily\nnote\na|b|c".data ≠
      "h.pylori".data) ∧
    (parseMedications "Amoxicillin | 500mg | 21 caps | thrice daily\nnote\na|b|c".data =
      (pySplit ['\n']
        (pyStrip "Amoxicillin | 500mg | 21 caps | thrice daily\nnote\na|b|c".data)).filterMap
        parseMedLine ∧
    (∀ line a b c d, (pySplit ['|'] line).map pyStrip = [a, b, c, d] →
      parseMedLine line = some ⟨a, b, c, d⟩) ∧
    (∀ line, ((pySplit ['|'] line).map pyStrip).length ≠ 4 →
      parseMedLine line = none)) :=
  ⟨by decide,
    claim6_pipe_line_parsing
      "Amoxicillin | 500mg | 21 caps | thrice daily\nnote\na|b|c".data (by decide)⟩

/-- C7: when the medication parser returns no entries, the
confirm_prescription handler re-prompts, stays in the same state and
leaves the Session Context (diagnosis included) and the store untouched. -/
theorem claim7_empty_parse_reprompts_unchanged (t : PyStr) (today : PyDate)
    (ud : UserData) (db : DB) (h : parseMedications t = []) :
    confirm_prescription t today ud db =
      .ok ud db .confirmPrescription [.invalidPrescriptionFormat] := by
  unfold confirm_prescription
  simp [h]

/-- C7 witness: free text with no pipe lines, against a context that
already holds a diagnosis. -/
theorem claim7_witness :
    (parseMedications "take two tablets daily".data = []) ∧
    confirm_prescription "take two tablets daily".data someDay
      ⟨none, none, none, none, some 1, some "Flu".data, none⟩ dbJane =
    .ok ⟨none, none, none, none, some 1, some "Flu".data, none⟩ dbJane
      .confirmPrescription [.invalidPrescriptionFormat] :=
  ⟨by decide,
    claim7_empty_parse_reprompts_unchanged "take two tablets daily".data someDay
      ⟨none, none, none, none, some 1, some "Flu".data, none⟩ dbJane (by decide)⟩

/-- C8: the claim states that the message following the search prompt is
consumed as a search term.  In the code handle_search is never registered
as a handler, so after the prompt the next message falls through
button_handler and is ignored: the trace shows the term produced no reply
and no state change, while the never-invoked handle_search would have
matched the patient. -/
theorem claim8_search_term_never_consumed :
    runMsgs someDay [.text searchLbl, .text "Jane".data] ⟨.idle, emptyUD, dbJane⟩ =
      (⟨.idle, emptyUD, dbJane⟩, [.searchPrompt]) ∧
    handle_search "Jane".data someDay emptyUD dbJane =
      .ok emptyUD dbJane .idle [.searchResults [janePatient]] := by
  decide

/-- C9 counterexample: the claim universally states that any choice
string with no ID marker re-prompts in the same state, and that any
choice string containing the marker followed by an integer stores that
integer and advances.  The cancel choice has no marker yet ends the
conversation instead of re-prompting, and a string containing the text
ID: 7x contains the marker followed by the integer 7 yet is re-prompted
with nothing stored. -/
theorem claim9_selection_counterexample :
    patient_diagnosis cancelLbl someDay emptyUD emptyDB ≠
      .ok emptyUD emptyDB .patientDiagnosis [.selectFromList] ∧
    patient_diagnosis "Jane Doe (Age: 40) - ID: 7x".data someDay emptyUD emptyDB =
      .ok emptyUD emptyDB .patientDiagnosis [.selectFromList] := by
  decide

/-- C9 amended: the literal cancel choice ends the conversation; any
other text in which the ID marker does not occur re-prompts in the same
state with the context unchanged; a marker whose following segment does
not parse as a Python int also re-prompts; and a text consisting of a
prefix (containing no earlier marker occurrence), the marker, and a
non-empty digit string stores the integer denoted by those digits as the
selected patient id and advances to diagnosis collection. -/
theorem claim9_selection_amended (today : PyDate) (ud : UserData) (db : DB) :
    patient_diagnosis cancelLbl today ud db = .ok ud db .idle [.cancelled] ∧
    (∀ t : PyStr, t ≠ cancelLbl → NoOcc idMarker t →
      patient_diagnosis t today ud db = .ok ud db .patientDiagnosis [.selectFromList]) ∧
    (∀ t seg, t ≠ cancelLbl → (pySplit idMarker t).get? 1 = some seg →
      pyInt seg = none →
      patient_diagnosis t today ud db = .ok ud db .patientDiagnosis [.selectFromList]) ∧
    (∀ pre ds : PyStr, ds ≠ [] → (∀ c ∈ ds, c.isDigit = true) →
      (∀ i, i < pre.length →
        idMarker.isPrefixOf (List.drop i (pre ++ idMarker ++ ds)) = false) →
      pre ++ idMarker ++ ds ≠ cancelLbl →
      patient_diagnosis (pre ++ idMarker ++ ds) today ud db =
        .ok { ud with selected_patient_id := some (Int.ofNat (digitsVal ds)) } db
          .prescriptionInput [.askDiagnosis]) := by
  refine ⟨?_, ?_, ?_, ?_⟩
  · simp [patient_diagnosis, cancelH]
  · intro t ht hno
    have hs := @pySplit_noOcc idMarker t (by decide) hno
    simp [patient_diagnosis, ht, hs]
  · intro t seg ht hg hi
    rw [List.get?_eq_getElem?] at hg
    simp [patient_diagnosis, ht, hg, hi]
  · intro pre ds hds hdig hfirst hcan
    have hnoocc : NoOcc idMarker ds := by
      intro a b hab
      have hmem : 'I' ∈ ds := by
        rw [hab]
        have hin : 'I' ∈ idMarker := by decide
        simp [List.mem_append, hin]
      exact absurd (hdig 'I' hmem) (by decide)
    have hsplit := @pySplit_first idMarker pre ds (by decide) hnoocc hfirst
    have hint := pyInt_digits hds hdig
    unfold patient_diagnosis
    rw [if_neg hcan, hsplit]
    simp [hint]

/-- C9 witness: a generated patient-choice label with identifier 15. -/
theorem claim9_witness :
    (("15".data : PyStr) ≠ []) ∧
    (∀ c ∈ ("15".data : PyStr), c.isDigit = true) ∧
    (∀ i, i < ("Jane Doe (Age: 40) - ".data : PyStr).length →
      idMarker.isPrefixOf
        (List.drop i ("Jane Doe (Age: 40) - ".data ++ idMarker ++ "15".data)) = false) ∧
    ("Jane Doe (Age: 40) - ".data ++ idMarker ++ "15".data ≠ cancelLbl) ∧
    patient_diagnosis ("Jane Doe (Age: 40) - ".data ++ idMarker ++ "15".data)
      someDay emptyUD emptyDB =
      .ok { emptyUD with selected_patient_id := some (Int.ofNat (digitsVal "15".data)) }
        emptyDB .prescriptionInput [.askDiagnosis] :=
  ⟨by decide, by decide, by decide, by decide,
    (claim9_selection_amended someDay emptyUD emptyDB).2.2.2
      "Jane Doe (Age: 40) - ".data "15".data
      (by decide) (by decide) (by decide) (by decide)⟩

/-- C10 counterexample: the claim states every operator-facing date,
including the prescription date in the recent-prescriptions listing,
renders as DD-MM-YYYY.  That listing interpolates the stored column value
verbatim, so the date shows in ISO form YYYY-MM-DD. -/
theorem claim10_prescription_listing_date_not_ddmmyyyy :
    viewPrescriptionsDateStrs
      ⟨[], [⟨1, 1, "Flu".data, someDay, someDay,
        [⟨"A".data, "B".data, "C".data, "D".data⟩]⟩], 1, 2⟩ =
      ["2026-10-12".data] ∧
    isDDMMYYYY "2026-10-12".data = false := by
  decide

/-- C10 amended: the patient-listing creation date, the prescription
preview date and the save-confirmation date all render as DD-MM-YYYY,
but the prescription date in the recent-prescriptions listing renders as
the stored ISO form YYYY-MM-DD, which is never of the DD-MM-YYYY shape. -/
theorem claim10_date_rendering (db : DB) (today : PyDate) (h : ValidDate today)
    (hp : ∀ p ∈ db.patients, ValidDate p.created_at)
    (hr : ∀ rx ∈ db.prescriptions, ValidDate rx.admission_date) :
    (∀ s ∈ viewPatientsDateStrs db, isDDMMYYYY s = true) ∧
    isDDMMYYYY (previewDateStr today) = true ∧
    isDDMMYYYY (savedDateStr today) = true ∧
    (∀ s ∈ viewPrescriptionsDateStrs db,
      isYYYYMMDD s = true ∧ isDDMMYYYY s = false) := by
  refine ⟨?_, fmtDMY_shape h, fmtDMY_shape h, ?_⟩
  · intro s hs
    unfold viewPatientsDateStrs at hs
    simp only [List.mem_map] at hs
    obtain ⟨p, hpm, rfl⟩ := hs
    have hp2 : p ∈ db.patients :=
      List.mem_reverse.mp (List.take_subset _ _ hpm)
    exact fmtDMY_shape (hp p hp2)
  · intro s hs
    unfold viewPrescriptionsDateStrs at hs
    simp only [List.mem_map] at hs
    obtain ⟨rx, hrm, rfl⟩ := hs
    have hr2 : rx ∈ db.prescriptions :=
      List.mem_reverse.mp (List.take_subset _ _ hrm)
    exact isoDate_shape (hr rx hr2)

/-- C10 witness: a store with one patient and one prescription on
concrete dates. -/
theorem claim10_witness :
    ValidDate someDay ∧
    (∀ p ∈ dbJane.patients, ValidDate p.created_at) ∧
    ((∀ s ∈ viewPatientsDateStrs dbJane, isDDMMYYYY s = true) ∧
      isDDMMYYYY (previewDateStr someDay) = true ∧
      isDDMMYYYY (savedDateStr someDay) = true ∧
      (∀ s ∈ viewPrescriptionsDateStrs dbJane,
        isYYYYMMDD s = true ∧ isDDMMYYYY s = false)) :=
  ⟨by decide, by decide,
    claim10_date_rendering dbJane someDay (by decide) (by decide) (by decide)⟩

end MedicalBot
